import Mathlib

/-!
Shallow embedding of `emotion_lava_lamp.py` (an emotion-driven lava-lamp
simulation core) and proofs about it.

Modelling conventions:
* Python floats are idealised as real numbers `ℝ`; components that use only
  field and order operations (`clamp`, `lerp`, the energy model) are stated
  generically over a `LinearOrderedField` so that bound claims can also be
  checked executably over `ℚ`.
* Python's `%` on floats (sign of the divisor) is `pymod`; Python's `int()`
  (truncation toward zero) is `pyInt`; Python's `list[:n]` slice (with its
  negative-index semantics) is `pySliceTo`.
* Ambient randomness (`random.random()`, `random.uniform`, `rng.gauss`) is
  modelled by explicit streams `ℕ → ℝ` of the drawn values, threaded with an
  index exactly where the source consumes a draw (including short-circuit
  `and`, where the draw is consumed only when the first conjunct holds).
* The `vad_getter` callable is modelled by passing the sample the getter
  returned as an `Option` argument to `tick`.
* The split loop of `_merge_and_split` can grow the list it iterates over, so
  it is not structurally terminating (for non-positive mean size and
  adversarial draws the Python loop diverges); it takes an explicit `fuel`
  bound on the number of loop iterations, and theorems hold for every fuel.
-/

/-- `clamp` from the source: `max(low, min(high, value))`. -/
def clamp {α : Type} [LinearOrder α] (value low high : α) : α :=
  max low (min high value)

/-- `lerp` from the source: `a + (b - a) * t`. -/
def lerp {α : Type} [Ring α] (a b t : α) : α :=
  a + (b - a) * t

/-- Python float `a % b` (result has the sign of `b`): `a - b * ⌊a / b⌋`.
Total here; Python raises on `b = 0`, a case no theorem below relies on. -/
noncomputable def pymod (a b : ℝ) : ℝ :=
  a - b * ⌊a / b⌋

/-- Python `int(x)` on a float: truncation toward zero. -/
noncomputable def pyInt (x : ℝ) : ℤ :=
  if 0 ≤ x then ⌊x⌋ else ⌈x⌉

/-- Python `l[:n]`: for `n < 0` the stop index is `max(len(l) + n, 0)`. -/
def pySliceTo {α : Type} (l : List α) (n : ℤ) : List α :=
  if 0 ≤ n then l.take n.toNat else l.take ((l.length : ℤ) + n).toNat

/-- A VAD triple (valence, arousal, dominance). -/
def VAD : Type := ℝ × ℝ × ℝ

/-- `hsv_to_rgb` from the source. -/
noncomputable def hsv_to_rgb (h s v : ℝ) : ℝ × ℝ × ℝ :=
  let h' := pymod h 360
  let c := v * s
  let x := c * (1 - |pymod (h' / 60) 2 - 1|)
  let m := v - c
  let rgb : ℝ × ℝ × ℝ :=
    if h' < 60 then (c, x, 0)
    else if h' < 120 then (x, c, 0)
    else if h' < 180 then (0, c, x)
    else if h' < 240 then (0, x, c)
    else if h' < 300 then (x, 0, c)
    else (c, 0, x)
  (rgb.1 + m, rgb.2.1 + m, rgb.2.2 + m)

/-- `TemporalFilter` dataclass: axis time constants, per-tick step bound and
the current smoothed state. -/
structure TemporalFilter where
  tau_v : ℝ
  tau_a : ℝ
  tau_d : ℝ
  max_step : ℝ
  state : VAD

/-- The dataclass defaults of `TemporalFilter`. -/
def TemporalFilter.init : TemporalFilter :=
  ⟨2, 0.6, 1.2, 0.25, ((0 : ℝ), (0 : ℝ), (0 : ℝ))⟩

/-- One axis of `TemporalFilter.update`: `alpha = 1 - exp(-dt/tau)`,
`bounded_target = cur + clamp(t - cur, -max_step, max_step)`,
`nxt = lerp(cur, bounded_target, alpha)`, clamped to `[-1, 1]`. -/
noncomputable def filterAxis (cur t tau ms dt : ℝ) : ℝ :=
  clamp (lerp cur (cur + clamp (t - cur) (-ms) ms) (1 - Real.exp (-dt / tau))) (-1) 1

/-- `TemporalFilter.update`: applies `filterAxis` to each axis with its own
time constant, stores and returns the new state. -/
noncomputable def TemporalFilter.update (f : TemporalFilter) (target : VAD) (dt : ℝ) :
    TemporalFilter × VAD :=
  let s1 := filterAxis f.state.1 target.1 f.tau_v f.max_step dt
  let s2 := filterAxis f.state.2.1 target.2.1 f.tau_a f.max_step dt
  let s3 := filterAxis f.state.2.2 target.2.2 f.tau_d f.max_step dt
  ({ f with state := (s1, s2, s3) }, (s1, s2, s3))

/-- The smoothed value on a single axis after `n` repeated `update` calls with
a constant target, starting from `s0`. -/
noncomputable def filterIter (t tau ms dt s0 : ℝ) : ℕ → ℝ
  | 0 => s0
  | n + 1 => filterAxis (filterIter t tau ms dt s0 n) t tau ms dt

/-- `EmotionEnergyModel` dataclass: decay factor and the accumulator. -/
structure EmotionEnergyModel (α : Type) where
  decay_per_frame : α
  energy : α

/-- `EmotionEnergyModel.update`: add the mean absolute per-axis divergence to
the accumulator, multiply by the decay factor, clamp to `[0, 10]`; returns the
updated model together with the new energy (the Python method returns
`self.energy` after mutating it). -/
def EmotionEnergyModel.update {α : Type} [LinearOrderedField α]
    (m : EmotionEnergyModel α) (target smoothed : α × α × α) :
    EmotionEnergyModel α × α :=
  let delta := (|target.1 - smoothed.1| + |target.2.1 - smoothed.2.1| +
    |target.2.2 - smoothed.2.2|) / 3
  let e1 := m.energy + delta
  let e2 := e1 * m.decay_per_frame
  let e3 := clamp e2 0 10
  ({ m with energy := e3 }, e3)

/-- The successive energy values produced by feeding a list of
(target, smoothed) pairs through `EmotionEnergyModel.update`. -/
def energyTrace {α : Type} [LinearOrderedField α] (m : EmotionEnergyModel α) :
    List ((α × α × α) × (α × α × α)) → List α
  | [] => []
  | p :: ps =>
    let r := m.update p.1 p.2
    r.2 :: energyTrace r.1 ps

/-- `Blob` dataclass: position, velocity, radius, color. -/
structure Blob where
  position : ℝ × ℝ
  velocity : ℝ × ℝ
  radius : ℝ
  color : ℝ × ℝ × ℝ

/-- `VisualParams` dataclass. -/
structure VisualParams where
  hsv_primary : ℝ × ℝ × ℝ
  hsv_secondary : ℝ × ℝ × ℝ
  rgb_primary : ℝ × ℝ × ℝ
  blob_count : ℤ
  blob_size_mean : ℝ
  surface_tension : ℝ
  viscosity : ℝ
  buoyancy : ℝ
  turbulence : ℝ
  threshold : ℝ
  gravity_x : ℝ

/-- `VisualMapping` dataclass: base turbulence and gains. -/
structure VisualMapping where
  base_turbulence : ℝ
  arousal_gain : ℝ
  energy_gain : ℝ

/-- The dataclass defaults of `VisualMapping`. -/
def VisualMapping.init : VisualMapping :=
  ⟨0.1, 0.9, 0.4⟩

/-- `VisualMapping.map`. `jitter` is the value drawn by
`random.uniform(-24.0, 24.0)` for the hue noise; `math.tau` is `2 * π`. -/
noncomputable def VisualMapping.map (m : VisualMapping) (vad : VAD)
    (energy t jitter : ℝ) : VisualParams :=
  let v := vad.1
  let a := vad.2.1
  let d := vad.2.2
  let nv := (v + 1) / 2
  let na := (a + 1) / 2
  let nd := (d + 1) / 2
  let h := lerp 220 20 nv
  let s := 0.3 + 0.7 * na
  let val := 0.4 + 0.6 * na
  let hue_noise := jitter * (1 - nd)
  let h2 := pymod (h + hue_noise) 360
  let blob_count := 3 + pyInt (na * 10)
  let blob_size_mean := lerp 0.14 0.05 na
  let surface_tension := lerp 0.2 1 nd
  let viscosity := lerp 1 0.2 nv
  let buoyancy := lerp (-0.3) 0.3 nv
  let turbulence := m.base_turbulence + na * m.arousal_gain + energy * m.energy_gain
  let threshold := lerp 1.2 0.9 nd
  let freq := 0.1 + na * 1.5
  let amp := 0.02 + energy * 0.05
  let gravity_x := Real.sin (t * freq * (2 * Real.pi)) * amp
  { hsv_primary := (h, s, val)
    hsv_secondary := (h2, s, val)
    rgb_primary := hsv_to_rgb h s val
    blob_count := blob_count
    blob_size_mean := blob_size_mean
    surface_tension := surface_tension
    viscosity := viscosity
    buoyancy := buoyancy
    turbulence := turbulence
    threshold := threshold
    gravity_x := gravity_x }

/-- `FluidSimulation` dataclass: domain size, base damping, blob list. -/
structure FluidSimulation where
  width : ℝ
  height : ℝ
  damping_base : ℝ
  blobs : List Blob

/-- `FluidSimulation.reset`: populate `params.blob_count` blobs (Python
`range` of a negative count is empty, hence `toNat`). The seeded
`random.Random` instance is modelled by three streams of drawn values:
`ru i` for the `rng.random()` position draws, `rv i` for the
`rng.uniform(-0.05, 0.05)` velocity draws, and `rg i` for the value returned
by `rng.gauss(params.blob_size_mean, 0.015)`. -/
def FluidSimulation.reset (sim : FluidSimulation) (params : VisualParams)
    (ru rv rg : ℕ → ℝ) : FluidSimulation :=
  { sim with
    blobs := (List.range params.blob_count.toNat).map fun i =>
      { position := (ru (2 * i) * sim.width, ru (2 * i + 1) * sim.height)
        velocity := (rv (2 * i), rv (2 * i + 1))
        radius := max 0.01 (rg i)
        color := params.rgb_primary } }

/-- `FluidSimulation._curl_noise`. -/
noncomputable def curl_noise (x y t : ℝ) : ℝ × ℝ :=
  (Real.sin (3 * y + 1.7 * t) * 0.5 + Real.sin (7 * y - 0.6 * t) * 0.5,
   Real.cos (3 * x - 1.3 * t) * 0.5 + Real.cos (5 * x + 0.8 * t) * 0.5)

/-- The `while len(self.blobs) < params.blob_count` append loop of `step`:
each appended blob consumes two `random.random()` draws (`u k`, `u (k+1)`)
for its position, has zero velocity, mean radius and the primary color. -/
def appendLoop (width height mean : ℝ) (color : ℝ × ℝ × ℝ) (count : ℤ)
    (u : ℕ → ℝ) (k : ℕ) (blobs : List Blob) : List Blob × ℕ :=
  if (blobs.length : ℤ) < count then
    appendLoop width height mean color count u (k + 2)
      (blobs ++ [{ position := (u k * width, u (k + 1) * height)
                   velocity := (0, 0), radius := mean, color := color }])
  else (blobs, k)
termination_by (count - blobs.length).toNat
decreasing_by
  simp only [List.length_append, List.length_cons, List.length_nil]
  omega

/-- The kinematic integration of one blob in `step`: curl-noise and bias
acceleration, multiplicative damping, position integration with x wrapped
modulo the width and y clamped to `[0, height]`, color refresh. -/
noncomputable def integrate (width height damping turbulence gravity_x buoyancy
    dt t : ℝ) (color : ℝ × ℝ × ℝ) (b : Blob) : Blob :=
  let c := curl_noise b.position.1 b.position.2 t
  let vx := (b.velocity.1 + (c.1 * turbulence + gravity_x) * dt) * damping
  let vy := (b.velocity.2 + (c.2 * turbulence + buoyancy) * dt) * damping
  { position := (pymod (b.position.1 + vx * dt) width,
                 clamp (b.position.2 + vy * dt) 0 height)
    velocity := (vx, vy)
    radius := b.radius
    color := color }

/-- The merge of blob `b` into blob `a` in `_merge_and_split`: the survivor's
radius becomes `sqrt(a.radius² + b.radius²)`, its velocity the average. -/
noncomputable def mergeBlobs (a b : Blob) : Blob :=
  { a with
    radius := Real.sqrt (a.radius * a.radius + b.radius * b.radius)
    velocity := ((a.velocity.1 + b.velocity.1) * 0.5,
                 (a.velocity.2 + b.velocity.2) * 0.5) }

/-- The inner `while j < len(self.blobs)` loop of the merge phase, for pivot
`a = self.blobs[i]` scanning the tail beyond `i`. A merge pops the scanned
blob and continues at the same inner position (Python's `continue` after
`pop(j)`); the draw `u k` is consumed only when the distance test holds
(short-circuit `and`). Returns the final pivot, the surviving tail and the
next draw index. -/
noncomputable def mergeScan (nd : ℝ) (u : ℕ → ℝ) (k : ℕ) (a : Blob) :
    List Blob → Blob × List Blob × ℕ
  | [] => (a, [], k)
  | b :: rest =>
    let dx := a.position.1 - b.position.1
    let dy := a.position.2 - b.position.2
    let dist2 := dx * dx + dy * dy
    let threshold := (a.radius + b.radius) * (1.5 - 0.5 * nd)
    if dist2 < threshold * threshold then
      if u k < nd then mergeScan nd u (k + 1) (mergeBlobs a b) rest
      else
        let r := mergeScan nd u (k + 1) a rest
        (r.1, b :: r.2.1, r.2.2)
    else
      let r := mergeScan nd u k a rest
      (r.1, b :: r.2.1, r.2.2)

/-- The outer `while i < len(self.blobs)` loop of the merge phase. -/
noncomputable def mergeOuter (nd : ℝ) (u : ℕ → ℝ) (k : ℕ) :
    List Blob → List Blob × ℕ
  | [] => ([], k)
  | a :: rest =>
    let s := mergeScan nd u k a rest
    let t := mergeOuter nd u s.2.2 s.2.1
    (s.1 :: t.1, t.2)
termination_by l => l.length
decreasing_by
  have H : ∀ (l : List Blob) (k : ℕ) (a : Blob),
      (mergeScan nd u k a l).2.1.length ≤ l.length := by
    intro l
    induction l with
    | nil => intro k a; simp [mergeScan]
    | cons b rest ih =>
      intro k a
      simp only [mergeScan]
      split
      · split
        · exact le_trans (ih (k + 1) (mergeBlobs a b)) (Nat.le_succ _)
        · simpa using Nat.succ_le_succ (ih (k + 1) a)
      · simpa using Nat.succ_le_succ (ih k a)
  simp only [List.length_cons]
  exact Nat.lt_succ_of_le (H _ _ _)

/-- The shrunken parent of a split: radius divided by `sqrt 2`. -/
noncomputable def splitParent (b : Blob) : Blob :=
  { b with radius := b.radius / Real.sqrt 2 }

/-- The spawned child of a split: offset position (wrapped / clamped like the
integrator), mirrored horizontal velocity, the parent's new radius and
color. -/
noncomputable def splitChild (width height : ℝ) (b : Blob) : Blob :=
  { position := (pymod (b.position.1 + 0.03) width,
                 clamp (b.position.2 + 0.03) 0 height)
    velocity := (-b.velocity.1, b.velocity.2)
    radius := b.radius / Real.sqrt 2
    color := b.color }

/-- The `while idx < len(self.blobs)` split loop of `_merge_and_split`,
with an explicit `fuel` bound on iterations (appended children are themselves
scanned later, so the Python loop has no structural measure). The draw `u k`
is consumed only when the radius test holds (short-circuit `and`). -/
noncomputable def splitLoop (na mean width height : ℝ) (u : ℕ → ℝ) :
    ℕ → ℕ → ℕ → List Blob → List Blob × ℕ
  | 0, k, _, blobs => (blobs, k)
  | fuel + 1, k, idx, blobs =>
    if h : idx < blobs.length then
      let b := blobs[idx]
      if b.radius > mean * 1.8 then
        if u k < na then
          splitLoop na mean width height u fuel (k + 1) (idx + 1)
            (blobs.set idx (splitParent b) ++ [splitChild width height b])
        else splitLoop na mean width height u fuel (k + 1) (idx + 1) blobs
      else splitLoop na mean width height u fuel k (idx + 1) blobs
    else (blobs, k)

/-- `FluidSimulation._merge_and_split`: the merge pass then the split pass,
threading the ambient draw stream `u` from index `k`. -/
noncomputable def merge_and_split (nd na : ℝ) (params : VisualParams)
    (width height : ℝ) (u : ℕ → ℝ) (k : ℕ) (fuel : ℕ) (blobs : List Blob) :
    List Blob × ℕ :=
  let m := mergeOuter nd u k blobs
  splitLoop na params.blob_size_mean width height u fuel m.2 0 m.1

/-- `FluidSimulation.step`: reseed when empty, reconcile the count (append
up to the target, then truncate with Python slice semantics), integrate every
blob, then merge and split. `u` is the ambient `random.random()` stream
(consumed by the append loop, the merge draws and the split draws, in source
order); `ru`, `rv`, `rg` are the seeded-generator streams used by `reset`. -/
noncomputable def FluidSimulation.step (sim : FluidSimulation)
    (params : VisualParams) (nd na dt t : ℝ) (u ru rv rg : ℕ → ℝ)
    (fuel : ℕ) : FluidSimulation :=
  let sim0 := if sim.blobs.isEmpty then sim.reset params ru rv rg else sim
  let ap := appendLoop sim.width sim.height params.blob_size_mean
    params.rgb_primary params.blob_count u 0 sim0.blobs
  let blobs1 := if (ap.1.length : ℤ) > params.blob_count then
    pySliceTo ap.1 params.blob_count else ap.1
  let damping := sim.damping_base - (1 - params.viscosity) * 0.02
  let blobs2 := blobs1.map (integrate sim.width sim.height damping
    params.turbulence params.gravity_x params.buoyancy dt t params.rgb_primary)
  let ms := merge_and_split nd na params sim.width sim.height u ap.2 fuel blobs2
  { sim with blobs := ms.1 }

/-- `EmotionLavaLampEngine` dataclass (the `vad_getter` callable is modelled
by passing each tick's returned sample as an argument to `tick`). -/
structure EmotionLavaLampEngine where
  filter : TemporalFilter
  energy_model : EmotionEnergyModel ℝ
  mapper : VisualMapping
  sim : FluidSimulation
  target_vad : VAD
  time_s : ℝ

/-- The dataclass defaults of `EmotionLavaLampEngine`. -/
def EmotionLavaLampEngine.init : EmotionLavaLampEngine :=
  { filter := TemporalFilter.init
    energy_model := ⟨0.995, 0⟩
    mapper := VisualMapping.init
    sim := ⟨1, 1, 0.995, []⟩
    target_vad := ((0 : ℝ), (0 : ℝ), (0 : ℝ))
    time_s := 0 }

/-- `EmotionLavaLampEngine.tick`: store the clamped sample when present
(hold `target_vad` otherwise), run filter, energy model, mapper and
simulation in order, advance the clock, return the new engine state and the
frame's `VisualParams`. `sample` is what `self.vad_getter()` returned;
`jitter` is the mapper's hue draw; `u`, `ru`, `rv`, `rg` and `fuel` feed the
simulation step. -/
noncomputable def EmotionLavaLampEngine.tick (e : EmotionLavaLampEngine)
    (sample : Option VAD) (jitter : ℝ) (u ru rv rg : ℕ → ℝ) (fuel : ℕ)
    (dt : ℝ) : EmotionLavaLampEngine × VisualParams :=
  let target_vad : VAD := match sample with
    | some s => (clamp s.1 (-1) 1, clamp s.2.1 (-1) 1, clamp s.2.2 (-1) 1)
    | none => e.target_vad
  let fr := e.filter.update target_vad dt
  let smoothed := fr.2
  let er := e.energy_model.update target_vad smoothed
  let energy := er.2
  let time_s := e.time_s + dt
  let params := e.mapper.map smoothed energy time_s jitter
  let na := (smoothed.2.1 + 1) / 2
  let nd := (smoothed.2.2 + 1) / 2
  let sim' := e.sim.step params nd na dt time_s u ru rv rg fuel
  ({ e with filter := fr.1, energy_model := er.1, sim := sim'
            target_vad := target_vad, time_s := time_s }, params)

/-- The clamping the sample-retrieval phase of `tick` applies to a present
sample, at Python's dynamic level: a tuple of any arity is accepted and each
component clamped. -/
noncomputable def clampSample (sample : List ℝ) : List ℝ :=
  sample.map fun v => clamp v (-1) 1

/-- `TemporalFilter.update` at Python's dynamic level, for a target tuple of
arbitrary arity: `zip(current, target, tau)` truncates to the shortest input,
so `out` has `min 3 (target.length)` entries, and building the new 3-tuple
state `(out[0], out[1], out[2])` raises an `IndexError` exactly when `out`
has fewer than 3 entries. -/
noncomputable def TemporalFilter.updateDyn (f : TemporalFilter)
    (target : List ℝ) (dt : ℝ) : Except String (TemporalFilter × VAD) :=
  let current := [f.state.1, f.state.2.1, f.state.2.2]
  let taus := [f.tau_v, f.tau_a, f.tau_d]
  let out := List.zipWith (fun ct tau => filterAxis ct.1 ct.2 tau f.max_step dt)
    (current.zip target) taus
  if h : 2 < out.length then
    Except.ok ({ f with state := (out[0], out[1], out[2]) },
      (out[0], out[1], out[2]))
  else Except.error "IndexError: tuple index out of range"

/-- The sample-retrieval phase of `tick` followed by the filter stage, at
Python's dynamic level: the engine performs no validation, stores the clamped
sample (whatever its arity) in `target_vad`, and only then hands it to the
filter. Returns the stored `target_vad` and the filter stage's outcome. -/
noncomputable def tickRetrieval (e : EmotionLavaLampEngine)
    (sample : Option (List ℝ)) (dt : ℝ) :
    List ℝ × Except String (TemporalFilter × VAD) :=
  let tv := match sample with
    | some s => clampSample s
    | none => [e.target_vad.1, e.target_vad.2.1, e.target_vad.2.2]
  (tv, e.filter.updateDyn tv dt)

/-- A blob lies in the simulation domain: `x ∈ [0, width)`, `y ∈ [0, height]`. -/
def inDomain (width height : ℝ) (b : Blob) : Prop :=
  0 ≤ b.position.1 ∧ b.position.1 < width ∧
    0 ≤ b.position.2 ∧ b.position.2 ≤ height

theorem le_clamp {α : Type} [LinearOrder α] (v low high : α) :
    low ≤ clamp v low high :=
  le_max_left _ _

theorem clamp_le {α : Type} [LinearOrder α] {v low high : α} (h : low ≤ high) :
    clamp v low high ≤ high :=
  max_le h (min_le_left _ _)

theorem clamp_eq_of_mem {α : Type} [LinearOrder α] {v low high : α}
    (h1 : low ≤ v) (h2 : v ≤ high) : clamp v low high = v := by
  unfold clamp
  rw [min_eq_right h2, max_eq_right h1]

theorem pymod_nonneg (a : ℝ) {b : ℝ} (hb : 0 < b) : 0 ≤ pymod a b := by
  unfold pymod
  have h1 : (⌊a / b⌋ : ℝ) ≤ a / b := Int.floor_le _
  have h2 : b * (⌊a / b⌋ : ℝ) ≤ b * (a / b) := by nlinarith
  have h3 : b * (a / b) = a := by field_simp
  linarith

theorem pymod_lt (a : ℝ) {b : ℝ} (hb : 0 < b) : pymod a b < b := by
  unfold pymod
  have h1 : a / b < ⌊a / b⌋ + 1 := Int.lt_floor_add_one _
  have h2 : b * (a / b) < b * ((⌊a / b⌋ : ℝ) + 1) := by nlinarith
  have h3 : b * (a / b) = a := by field_simp
  nlinarith

theorem filterAxis_le (cur t tau ms dt : ℝ) (hc1 : -1 ≤ cur) (hct : cur ≤ t)
    (ht : t ≤ 1) (hms : 0 ≤ ms) (hdt : 0 < dt) (htau : 0 < tau) :
    cur ≤ filterAxis cur t tau ms dt ∧ filterAxis cur t tau ms dt ≤ t := by
  have hexp0 : 0 < Real.exp (-dt / tau) := Real.exp_pos _
  have hexp1 : Real.exp (-dt / tau) < 1 := by
    have hneg : -dt / tau < 0 := div_neg_of_neg_of_pos (by linarith) htau
    calc Real.exp (-dt / tau) < Real.exp 0 := Real.exp_lt_exp.mpr hneg
    _ = 1 := Real.exp_zero
  have key : cur ≤ lerp cur (cur + clamp (t - cur) (-ms) ms)
        (1 - Real.exp (-dt / tau)) ∧
      lerp cur (cur + clamp (t - cur) (-ms) ms) (1 - Real.exp (-dt / tau)) ≤ t := by
    unfold lerp clamp
    rcases min_cases ms (t - cur) with ⟨h1, h2⟩ | ⟨h1, h2⟩ <;>
      rw [h1] <;>
      rcases max_cases (-ms) ms with ⟨g1, g2⟩ | ⟨g1, g2⟩ <;>
      rcases max_cases (-ms) (t - cur) with ⟨f1, f2⟩ | ⟨f1, f2⟩ <;>
      constructor <;> nlinarith
  have houter : filterAxis cur t tau ms dt =
      lerp cur (cur + clamp (t - cur) (-ms) ms) (1 - Real.exp (-dt / tau)) := by
    unfold filterAxis
    exact clamp_eq_of_mem (by linarith [key.1]) (by linarith [key.2])
  rw [houter]
  exact key

theorem filterAxis_lt (cur t tau ms dt : ℝ) (hc1 : -1 ≤ cur) (hct : cur < t)
    (ht : t ≤ 1) (hms : 0 < ms) (hdt : 0 < dt) (htau : 0 < tau) :
    cur < filterAxis cur t tau ms dt ∧ filterAxis cur t tau ms dt < t := by
  have hexp0 : 0 < Real.exp (-dt / tau) := Real.exp_pos _
  have hexp1 : Real.exp (-dt / tau) < 1 := by
    have hneg : -dt / tau < 0 := div_neg_of_neg_of_pos (by linarith) htau
    calc Real.exp (-dt / tau) < Real.exp 0 := Real.exp_lt_exp.mpr hneg
    _ = 1 := Real.exp_zero
  have key : cur < lerp cur (cur + clamp (t - cur) (-ms) ms)
        (1 - Real.exp (-dt / tau)) ∧
      lerp cur (cur + clamp (t - cur) (-ms) ms) (1 - Real.exp (-dt / tau)) < t := by
    unfold lerp clamp
    rcases min_cases ms (t - cur) with ⟨h1, h2⟩ | ⟨h1, h2⟩ <;>
      rw [h1] <;>
      rcases max_cases (-ms) ms with ⟨g1, g2⟩ | ⟨g1, g2⟩ <;>
      rcases max_cases (-ms) (t - cur) with ⟨f1, f2⟩ | ⟨f1, f2⟩ <;>
      constructor <;> nlinarith
  have houter : filterAxis cur t tau ms dt =
      lerp cur (cur + clamp (t - cur) (-ms) ms) (1 - Real.exp (-dt / tau)) := by
    unfold filterAxis
    exact clamp_eq_of_mem (by linarith [key.1]) (by linarith [key.2])
  rw [houter]
  exact key

/-- C9: for a constant target held fixed across repeated `TemporalFilter.update`
calls with `dt > 0` (per-axis time constant `tau > 0`, step bound `ms ≥ 0`),
if the smoothed value on an axis starts strictly below the target (with the
smoothed value in the filter's `[-1, 1]` range and the target at most `1`, as
the engine's clamping guarantees), then each successive tick's smoothed value
is greater than or equal to the previous tick's value and less than or equal
to the target. -/
theorem filter_step_response (t tau ms dt s0 : ℝ) (hs0 : -1 ≤ s0) (hst : s0 < t)
    (ht : t ≤ 1) (hms : 0 ≤ ms) (hdt : 0 < dt) (htau : 0 < tau) :
    ∀ n, filterIter t tau ms dt s0 n ≤ filterIter t tau ms dt s0 (n + 1) ∧
      filterIter t tau ms dt s0 (n + 1) ≤ t := by
  have inv : ∀ n, -1 ≤ filterIter t tau ms dt s0 n ∧
      filterIter t tau ms dt s0 n ≤ t := by
    intro n
    induction n with
    | zero => exact ⟨hs0, le_of_lt hst⟩
    | succ n ih =>
      have h := filterAxis_le (filterIter t tau ms dt s0 n) t tau ms dt
        ih.1 ih.2 ht hms hdt htau
      exact ⟨le_trans ih.1 h.1, h.2⟩
  intro n
  have h := filterAxis_le (filterIter t tau ms dt s0 n) t tau ms dt
    (inv n).1 (inv n).2 ht hms hdt htau
  exact ⟨h.1, h.2⟩

theorem filter_step_response_witness :
    (-1 ≤ (0 : ℝ) ∧ (0 : ℝ) < 1 ∧ (1 : ℝ) ≤ 1 ∧ (0 : ℝ) ≤ 0.25 ∧
      (0 : ℝ) < 0.016 ∧ (0 : ℝ) < 0.6) ∧
    ∀ n, filterIter 1 0.6 0.25 0.016 0 n ≤ filterIter 1 0.6 0.25 0.016 0 (n + 1) ∧
      filterIter 1 0.6 0.25 0.016 0 (n + 1) ≤ 1 :=
  ⟨by norm_num,
   filter_step_response 1 0.6 0.25 0.016 0 (by norm_num) (by norm_num)
     (by norm_num) (by norm_num) (by norm_num) (by norm_num)⟩

/-- C5: for every sequence of (target, smoothed) pairs fed to
`EmotionEnergyModel.update`, the energy after each update lies in `[0, 10]`;
and with the default decay factor `0.995`, each update adds the mean absolute
per-axis divergence to the accumulator, multiplies the whole accumulator by
`0.995`, then clamps to `[0, 10]`. -/
theorem energy_update_bounded :
    (∀ (e : ℚ) (target smoothed : ℚ × ℚ × ℚ),
      ((EmotionEnergyModel.mk (0.995 : ℚ) e).update target smoothed).2 =
        clamp ((e + (|target.1 - smoothed.1| + |target.2.1 - smoothed.2.1| +
          |target.2.2 - smoothed.2.2|) / 3) * 0.995) 0 10) ∧
    ∀ (m : EmotionEnergyModel ℚ)
      (inputs : List ((ℚ × ℚ × ℚ) × (ℚ × ℚ × ℚ))),
      ∀ e ∈ energyTrace m inputs, 0 ≤ e ∧ e ≤ 10 := by
  constructor
  · intro e target smoothed
    rfl
  · intro m inputs
    induction inputs generalizing m with
    | nil => intro e he; simp [energyTrace] at he
    | cons p ps ih =>
      intro e he
      simp only [energyTrace, List.mem_cons] at he
      rcases he with he | he
      · subst he
        exact ⟨le_clamp _ _ _, clamp_le (by norm_num)⟩
      · exact ih _ e he

theorem energy_update_bounded_witness :
    (0 : ℚ) ≤ 199 / 600 ∧ (199 / 600 : ℚ) ≤ 10 :=
  energy_update_bounded.2 ⟨0.995, 0⟩ [((1, 0, 0), (0, 0, 0))] (199 / 600)
    (by norm_num [energyTrace, EmotionEnergyModel.update, clamp])

/-- C10: for every VAD triple with each axis in `[-1, 1]` and every energy in
`[0, 10]`, the `VisualParams` produced by `VisualMapping.map` with the default
gains has an integer `blob_count` between 3 and 13 inclusive and a
`turbulence` in `[0.1, 5.0]`. -/
theorem map_blob_count_turbulence_ranges (vad : VAD) (energy t jitter : ℝ)
    (hv1 : -1 ≤ vad.1) (hv2 : vad.1 ≤ 1)
    (ha1 : -1 ≤ vad.2.1) (ha2 : vad.2.1 ≤ 1)
    (hd1 : -1 ≤ vad.2.2) (hd2 : vad.2.2 ≤ 1)
    (he1 : 0 ≤ energy) (he2 : energy ≤ 10) :
    (3 ≤ (VisualMapping.init.map vad energy t jitter).blob_count ∧
      (VisualMapping.init.map vad energy t jitter).blob_count ≤ 13) ∧
    (0.1 ≤ (VisualMapping.init.map vad energy t jitter).turbulence ∧
      (VisualMapping.init.map vad energy t jitter).turbulence ≤ 5.0) := by
  have hbc : (VisualMapping.init.map vad energy t jitter).blob_count =
      3 + pyInt ((vad.2.1 + 1) / 2 * 10) := by
    simp [VisualMapping.map]
  have htb : (VisualMapping.init.map vad energy t jitter).turbulence =
      0.1 + (vad.2.1 + 1) / 2 * 0.9 + energy * 0.4 := by
    simp [VisualMapping.map, VisualMapping.init]
  have hna0 : (0 : ℝ) ≤ (vad.2.1 + 1) / 2 * 10 := by linarith
  have hna10 : (vad.2.1 + 1) / 2 * 10 ≤ 10 := by linarith
  have hpy : pyInt ((vad.2.1 + 1) / 2 * 10) = ⌊(vad.2.1 + 1) / 2 * 10⌋ := by
    unfold pyInt
    rw [if_pos hna0]
  have h0 : (0 : ℤ) ≤ ⌊(vad.2.1 + 1) / 2 * 10⌋ := Int.floor_nonneg.mpr hna0
  have h10 : ⌊(vad.2.1 + 1) / 2 * 10⌋ ≤ 10 := by
    have h := Int.floor_le_floor (α := ℝ) hna10
    simpa using h
  constructor
  · rw [hbc, hpy]
    omega
  · rw [htb]
    constructor <;> nlinarith

theorem map_blob_count_turbulence_ranges_witness :
    ((-1 ≤ (0 : ℝ)) ∧ ((0 : ℝ) ≤ 1) ∧ ((0 : ℝ) ≤ 10)) ∧
    (3 ≤ (VisualMapping.init.map ((0 : ℝ), (0 : ℝ), (0 : ℝ)) 0 0 0).blob_count ∧
      (VisualMapping.init.map ((0 : ℝ), (0 : ℝ), (0 : ℝ)) 0 0 0).blob_count ≤ 13) ∧
    (0.1 ≤ (VisualMapping.init.map ((0 : ℝ), (0 : ℝ), (0 : ℝ)) 0 0 0).turbulence ∧
      (VisualMapping.init.map ((0 : ℝ), (0 : ℝ), (0 : ℝ)) 0 0 0).turbulence ≤ 5.0) :=
  ⟨by norm_num,
   map_blob_count_turbulence_ranges ((0 : ℝ), (0 : ℝ), (0 : ℝ)) 0 0 0
     (by norm_num) (by norm_num) (by norm_num) (by norm_num) (by norm_num)
     (by norm_num) (by norm_num) (by norm_num)⟩

/-- C7: whenever the merge guard of `_merge_and_split` fires (the squared
distance is below the squared threshold and the uniform draw is below `nd`),
the scan continues past the absorbed blob with the merged survivor as pivot:
the survivor's new radius squared equals the sum of the two input radii
squared, its velocity is the componentwise average of the two input
velocities, and the absorbed blob is removed from the surviving tail. -/
theorem merge_conserves_mass (nd : ℝ) (u : ℕ → ℝ) (k : ℕ) (a b : Blob)
    (rest : List Blob)
    (hdist : (a.position.1 - b.position.1) * (a.position.1 - b.position.1) +
        (a.position.2 - b.position.2) * (a.position.2 - b.position.2) <
      ((a.radius + b.radius) * (1.5 - 0.5 * nd)) *
        ((a.radius + b.radius) * (1.5 - 0.5 * nd)))
    (hdraw : u k < nd) :
    mergeScan nd u k a (b :: rest) = mergeScan nd u (k + 1) (mergeBlobs a b) rest ∧
    (mergeBlobs a b).radius * (mergeBlobs a b).radius =
      a.radius * a.radius + b.radius * b.radius ∧
    (mergeBlobs a b).velocity = ((a.velocity.1 + b.velocity.1) * 0.5,
      (a.velocity.2 + b.velocity.2) * 0.5) ∧
    (mergeBlobs a b).position = a.position := by
  refine ⟨?_, ?_, rfl, rfl⟩
  · rw [mergeScan]
    rw [if_pos hdist, if_pos hdraw]
  · show Real.sqrt (a.radius * a.radius + b.radius * b.radius) *
      Real.sqrt (a.radius * a.radius + b.radius * b.radius) = _
    exact Real.mul_self_sqrt (by nlinarith [mul_self_nonneg a.radius, mul_self_nonneg b.radius])

theorem merge_conserves_mass_witness :
    ((0 : ℝ) * 0 + 0 * 0 < (((1 : ℝ) + 1) * (1.5 - 0.5 * 1)) *
      (((1 : ℝ) + 1) * (1.5 - 0.5 * 1)) ∧ (0 : ℝ) < 1) ∧
    ((mergeBlobs ⟨(0, 0), (0, 0), 1, (0, 0, 0)⟩ ⟨(0, 0), (0, 0), 1, (0, 0, 0)⟩).radius *
        (mergeBlobs ⟨(0, 0), (0, 0), 1, (0, 0, 0)⟩ ⟨(0, 0), (0, 0), 1, (0, 0, 0)⟩).radius =
      (1 : ℝ) * 1 + 1 * 1) :=
  ⟨⟨by norm_num, by norm_num⟩,
   (merge_conserves_mass 1 (fun _ => 0) 0 ⟨(0, 0), (0, 0), 1, (0, 0, 0)⟩
     ⟨(0, 0), (0, 0), 1, (0, 0, 0)⟩ [] (by norm_num) (by norm_num)).2.1⟩

/-- C8: whenever the split guard of `_merge_and_split` fires for the blob at
`idx` (its radius exceeds `1.8` times the target mean size and the uniform
draw is below `na`), the loop replaces it by the shrunken parent and appends
the child: both resulting radii equal the pre-split radius divided by
`sqrt 2`, and the child carries the parent's color and the parent's velocity
with the horizontal component negated. -/
theorem split_conserves_radius (na mean width height : ℝ) (u : ℕ → ℝ)
    (fuel k idx : ℕ) (blobs : List Blob) (hidx : idx < blobs.length)
    (hrad : blobs[idx].radius > mean * 1.8) (hdraw : u k < na) :
    splitLoop na mean width height u (fuel + 1) k idx blobs =
      splitLoop na mean width height u fuel (k + 1) (idx + 1)
        (blobs.set idx (splitParent blobs[idx]) ++
          [splitChild width height blobs[idx]]) ∧
    (splitParent blobs[idx]).radius = blobs[idx].radius / Real.sqrt 2 ∧
    (splitChild width height blobs[idx]).radius =
      blobs[idx].radius / Real.sqrt 2 ∧
    (splitChild width height blobs[idx]).color = blobs[idx].color ∧
    (splitChild width height blobs[idx]).velocity =
      (-blobs[idx].velocity.1, blobs[idx].velocity.2) := by
  refine ⟨?_, rfl, rfl, rfl, rfl⟩
  rw [splitLoop]
  rw [dif_pos hidx, if_pos hrad, if_pos hdraw]

theorem split_conserves_radius_witness :
    ((0 : ℕ) < 1 ∧
      (⟨(0, 0), (1, 1), 1, (0.5, 0.5, 0.5)⟩ : Blob).radius > (0.1 : ℝ) * 1.8 ∧
      (0 : ℝ) < 1) ∧
    (splitChild 1 1 (⟨(0, 0), (1, 1), 1, (0.5, 0.5, 0.5)⟩ : Blob)).radius =
      (⟨(0, 0), (1, 1), 1, (0.5, 0.5, 0.5)⟩ : Blob).radius / Real.sqrt 2 :=
  ⟨⟨by norm_num, by norm_num, by norm_num⟩,
   by
    have h := split_conserves_radius 1 0.1 1 1 (fun _ => 0) 3 0 0
      [⟨(0, 0), (1, 1), 1, (0.5, 0.5, 0.5)⟩] (by norm_num)
      (by norm_num) (by norm_num)
    simpa using h.2.2.1⟩

/-- The merge phase never grows the scanned tail. -/
theorem mergeScan_length (nd : ℝ) (u : ℕ → ℝ) :
    ∀ (l : List Blob) (k : ℕ) (a : Blob),
      (mergeScan nd u k a l).2.1.length ≤ l.length := by
  intro l
  induction l with
  | nil => intro _ _; simp [mergeScan]
  | cons b rest ih =>
    intro k a
    simp only [mergeScan]
    split
    · split
      · exact le_trans (ih (k + 1) (mergeBlobs a b)) (Nat.le_succ _)
      · simpa using Nat.succ_le_succ (ih (k + 1) a)
    · simpa using Nat.succ_le_succ (ih k a)

theorem integrate_inDomain (width height damping turbulence gravity_x buoyancy
    dt t : ℝ) (color : ℝ × ℝ × ℝ) (b : Blob) (hw : 0 < width) (hh : 0 ≤ height) :
    inDomain width height
      (integrate width height damping turbulence gravity_x buoyancy dt t color b) := by
  exact ⟨pymod_nonneg _ hw, pymod_lt _ hw, le_clamp _ _ _, clamp_le hh⟩

theorem mergeBlobs_position (a b : Blob) : (mergeBlobs a b).position = a.position :=
  rfl

theorem mergeScan_inDomain (nd : ℝ) (u : ℕ → ℝ) (w h : ℝ) :
    ∀ (l : List Blob) (k : ℕ) (a : Blob), inDomain w h a →
      (∀ x ∈ l, inDomain w h x) →
      inDomain w h (mergeScan nd u k a l).1 ∧
        ∀ x ∈ (mergeScan nd u k a l).2.1, inDomain w h x := by
  intro l
  induction l with
  | nil =>
    intro k a ha _
    exact ⟨ha, by simp [mergeScan]⟩
  | cons b rest ih =>
    intro k a ha hl
    have hb := hl b (List.mem_cons_self _ _)
    have hrest : ∀ x ∈ rest, inDomain w h x := fun x hx =>
      hl x (List.mem_cons_of_mem _ hx)
    simp only [mergeScan]
    split
    · split
      · exact ih (k + 1) (mergeBlobs a b) ha hrest
      · have hr := ih (k + 1) a ha hrest
        refine ⟨hr.1, ?_⟩
        intro x hx
        rcases List.mem_cons.mp hx with rfl | hx
        · exact hb
        · exact hr.2 x hx
    · have hr := ih k a ha hrest
      refine ⟨hr.1, ?_⟩
      intro x hx
      rcases List.mem_cons.mp hx with rfl | hx
      · exact hb
      · exact hr.2 x hx

theorem mergeOuter_inDomain (nd : ℝ) (u : ℕ → ℝ) (w h : ℝ) (l : List Blob)
    (k : ℕ) (hl : ∀ x ∈ l, inDomain w h x) :
    ∀ x ∈ (mergeOuter nd u k l).1, inDomain w h x := by
  match l with
  | [] =>
    intro x hx
    simp [mergeOuter] at hx
  | a :: rest =>
    have ha := hl a (List.mem_cons_self _ _)
    have hrest : ∀ x ∈ rest, inDomain w h x := fun x hx =>
      hl x (List.mem_cons_of_mem _ hx)
    have hs := mergeScan_inDomain nd u w h rest k a ha hrest
    have hrec := mergeOuter_inDomain nd u w h (mergeScan nd u k a rest).2.1
      (mergeScan nd u k a rest).2.2 hs.2
    intro x hx
    rw [mergeOuter] at hx
    simp only [List.mem_cons] at hx
    rcases hx with rfl | hx
    · exact hs.1
    · exact hrec x hx
termination_by l.length
decreasing_by
  have := mergeScan_length nd u rest k a
  simp only [List.length_cons]
  omega

theorem splitLoop_inDomain (na mean width height : ℝ) (u : ℕ → ℝ)
    (hw : 0 < width) (hh : 0 ≤ height) :
    ∀ (fuel k idx : ℕ) (blobs : List Blob),
      (∀ x ∈ blobs, inDomain width height x) →
      ∀ x ∈ (splitLoop na mean width height u fuel k idx blobs).1,
        inDomain width height x := by
  intro fuel
  induction fuel with
  | zero =>
    intro k idx blobs hb
    simpa [splitLoop] using hb
  | succ fuel ih =>
    intro k idx blobs hb
    rw [splitLoop]
    split
    next hidx =>
      dsimp only
      split
      · split
        · apply ih
          intro x hx
          rcases List.mem_append.mp hx with hx | hx
          · rcases List.mem_or_eq_of_mem_set hx with hx | rfl
            · exact hb x hx
            · exact hb blobs[idx] (List.getElem_mem hidx)
          · rcases List.mem_singleton.mp hx with rfl
            exact ⟨pymod_nonneg _ hw, pymod_lt _ hw, le_clamp _ _ _, clamp_le hh⟩
        · exact ih _ _ _ hb
      · exact ih _ _ _ hb
    next =>
      simpa using hb

/-- C6: after every `FluidSimulation.step` call on a well-formed domain
(positive width, nonnegative height), every blob — including newly spawned
split children — has its x-position in `[0, width)` and its y-position in
`[0, height]`. -/
theorem step_domain_containment (sim : FluidSimulation) (params : VisualParams)
    (nd na dt t : ℝ) (u ru rv rg : ℕ → ℝ) (fuel : ℕ)
    (hw : 0 < sim.width) (hh : 0 ≤ sim.height) :
    ∀ b ∈ (sim.step params nd na dt t u ru rv rg fuel).blobs,
      inDomain sim.width sim.height b := by
  intro b hb
  unfold FluidSimulation.step merge_and_split at hb
  simp only at hb
  refine splitLoop_inDomain na params.blob_size_mean sim.width sim.height u
    hw hh _ _ _ _ ?_ b hb
  refine mergeOuter_inDomain nd u sim.width sim.height _ _ ?_
  intro x hx
  rcases List.mem_map.mp hx with ⟨y, _, rfl⟩
  exact integrate_inDomain _ _ _ _ _ _ _ _ _ y hw hh

theorem step_domain_containment_witness :
    ((0 : ℝ) < 1 ∧ (0 : ℝ) ≤ 1) ∧
    ∀ b ∈ ((⟨1, 1, 0.995, []⟩ : FluidSimulation).step
        ⟨(0, 0, 0), (0, 0, 0), (0, 0, 0), 0, 0.1, 0, 1, 0, 0, 1, 0⟩ 0 0 0 0
        (fun _ => 0) (fun _ => 0) (fun _ => 0) (fun _ => 0) 0).blobs,
      inDomain 1 1 b :=
  ⟨⟨by norm_num, by norm_num⟩,
   step_domain_containment ⟨1, 1, 0.995, []⟩
     ⟨(0, 0, 0), (0, 0, 0), (0, 0, 0), 0, 0.1, 0, 1, 0, 0, 1, 0⟩ 0 0 0 0
     (fun _ => 0) (fun _ => 0) (fun _ => 0) (fun _ => 0) 0 one_pos zero_le_one⟩

theorem appendLoop_length (width height mean : ℝ) (color : ℝ × ℝ × ℝ)
    (count : ℤ) (u : ℕ → ℝ) (k : ℕ) (blobs : List Blob) :
    ((appendLoop width height mean color count u k blobs).1.length : ℤ) =
      max (blobs.length : ℤ) count := by
  rw [appendLoop]
  split
  next hlt =>
    rw [appendLoop_length]
    simp only [List.length_append, List.length_cons, List.length_nil]
    push_cast
    omega
  next hge =>
    simp only
    omega
termination_by (count - blobs.length).toNat
decreasing_by
  simp only [List.length_append, List.length_cons, List.length_nil]
  omega

theorem pySliceTo_length_nonneg {α : Type} (l : List α) (n : ℤ) (hn : 0 ≤ n) :
    ((pySliceTo l n).length : ℤ) = min (l.length : ℤ) n := by
  unfold pySliceTo
  rw [if_pos hn]
  simp only [List.length_take]
  omega

theorem mergeScan_of_nd_nonpos (nd : ℝ) (u : ℕ → ℝ) (hnd : nd ≤ 0)
    (hu : ∀ i, 0 ≤ u i) :
    ∀ (l : List Blob) (k : ℕ) (a : Blob),
      (mergeScan nd u k a l).1 = a ∧ (mergeScan nd u k a l).2.1 = l := by
  intro l
  induction l with
  | nil => intro _ _; simp [mergeScan]
  | cons b rest ih =>
    intro k a
    simp only [mergeScan]
    split
    · rw [if_neg (by have := hu k; intro hcon; linarith)]
      exact ⟨(ih (k + 1) a).1, by rw [(ih (k + 1) a).2]⟩
    · exact ⟨(ih k a).1, by rw [(ih k a).2]⟩

theorem mergeOuter_of_nd_nonpos (nd : ℝ) (u : ℕ → ℝ) (hnd : nd ≤ 0)
    (hu : ∀ i, 0 ≤ u i) (l : List Blob) (k : ℕ) :
    (mergeOuter nd u k l).1 = l := by
  match l with
  | [] => simp [mergeOuter]
  | a :: rest =>
    have hs := mergeScan_of_nd_nonpos nd u hnd hu rest k a
    rw [mergeOuter]
    simp only
    rw [hs.1, hs.2]
    rw [mergeOuter_of_nd_nonpos nd u hnd hu rest (mergeScan nd u k a rest).2.2]
termination_by l.length
decreasing_by
  simp only [List.length_cons]
  omega

theorem splitLoop_of_na_nonpos (na mean width height : ℝ) (u : ℕ → ℝ)
    (hna : na ≤ 0) (hu : ∀ i, 0 ≤ u i) :
    ∀ (fuel k idx : ℕ) (blobs : List Blob),
      (splitLoop na mean width height u fuel k idx blobs).1 = blobs := by
  intro fuel
  induction fuel with
  | zero => intro k idx blobs; rfl
  | succ fuel ih =>
    intro k idx blobs
    rw [splitLoop]
    split
    next hidx =>
      dsimp only
      split
      · rw [if_neg (by have := hu k; intro hcon; linarith)]
        exact ih _ _ _
      · exact ih _ _ _
    next => rfl

/-- C1 (amended): after a `step` call with a nonnegative `blob_count` in which
neither the merge draw nor the split draw can fire (here: `nd ≤ 0` and
`na ≤ 0`, the draws being in `[0, 1)`), the blob count equals
`params.blob_count` from that same call. (As stated over all draws the claim
is false: reconciliation runs before `_merge_and_split`, so a merge or split
in the same call moves the final count off the target.) -/
theorem step_count_reconciled (sim : FluidSimulation) (params : VisualParams)
    (nd na dt t : ℝ) (u ru rv rg : ℕ → ℝ) (fuel : ℕ)
    (hbc : 0 ≤ params.blob_count) (hu : ∀ i, 0 ≤ u i)
    (hnd : nd ≤ 0) (hna : na ≤ 0) :
    (((sim.step params nd na dt t u ru rv rg fuel).blobs).length : ℤ) =
      params.blob_count := by
  unfold FluidSimulation.step merge_and_split
  simp only
  rw [splitLoop_of_na_nonpos na params.blob_size_mean sim.width sim.height u
    hna hu]
  rw [mergeOuter_of_nd_nonpos nd u hnd hu]
  rw [List.length_map]
  generalize (if sim.blobs.isEmpty = true then sim.reset params ru rv rg
    else sim).blobs = L
  have hap := appendLoop_length sim.width sim.height params.blob_size_mean
    params.rgb_primary params.blob_count u 0 L
  split
  next hgt =>
    rw [pySliceTo_length_nonneg _ _ hbc]
    omega
  next hle =>
    omega

theorem step_count_reconciled_witness :
    ((0 : ℤ) ≤ 2 ∧ (∀ _ : ℕ, (0 : ℝ) ≤ 0) ∧ (0 : ℝ) ≤ 0) ∧
    ((((⟨1, 1, 0.995, []⟩ : FluidSimulation).step
        ⟨(0, 0, 0), (0, 0, 0), (0, 0, 0), 2, 0.1, 0, 1, 0, 0, 1, 0⟩ 0 0 0 0
        (fun _ => 0) (fun _ => 0) (fun _ => 0) (fun _ => 0) 3).blobs).length : ℤ) = 2 :=
  ⟨⟨by norm_num, fun _ => le_refl 0, le_refl 0⟩,
   step_count_reconciled ⟨1, 1, 0.995, []⟩
     ⟨(0, 0, 0), (0, 0, 0), (0, 0, 0), 2, 0.1, 0, 1, 0, 0, 1, 0⟩ 0 0 0 0
     (fun _ => 0) (fun _ => 0) (fun _ => 0) (fun _ => 0) 3
     (by norm_num) (fun _ => le_refl 0) (le_refl 0) (le_refl 0)⟩

/-- C1 counterexample: a concrete `step` call — two coincident blobs,
`params.blob_count = 2`, `nd = 1`, `na = 0`, all draws zero — in which the
merge guard fires during `_merge_and_split`: the call returns with a single
blob while `params.blob_count` of that same call is `2`, so the count after
`step` is not `params.blob_count` for every choice of the random draws. -/
theorem step_count_counterexample :
    ((((⟨1, 1, 0.995,
          [⟨(0, 0), (0, 0), 0.05, (0, 0, 0)⟩,
           ⟨(0, 0), (0, 0), 0.05, (0, 0, 0)⟩]⟩ : FluidSimulation).step
        ⟨(0, 0, 0), (0, 0, 0), (0, 0, 0), 2, 1, 0, 1, 0, 0, 1, 0⟩
        1 0 0 0 (fun _ => 0) (fun _ => 0) (fun _ => 0) (fun _ => 0)
        2).blobs).length : ℤ) = 1 ∧
    ((⟨(0, 0, 0), (0, 0, 0), (0, 0, 0), 2, 1, 0, 1, 0, 0, 1, 0⟩ :
        VisualParams).blob_count) = 2 ∧ (1 : ℤ) ≠ 2 := by
  refine ⟨?_, rfl, by norm_num⟩
  have h18 : ¬ (Real.sqrt (5e-2 * 5e-2 + 5e-2 * 5e-2) > (1.8 : ℝ)) := by
    rw [not_lt]
    have h1 : Real.sqrt (5e-2 * 5e-2 + 5e-2 * 5e-2) ≤ 1.8 :=
      Real.sqrt_le_iff.mpr ⟨by norm_num, by norm_num⟩
    linarith
  unfold FluidSimulation.step merge_and_split
  simp only [List.isEmpty_cons, Bool.false_eq_true, if_false]
  have happ : appendLoop 1 1 1 ((0 : ℝ), (0 : ℝ), (0 : ℝ)) 2 (fun _ => (0 : ℝ)) 0
      [⟨(0, 0), (0, 0), 0.05, (0, 0, 0)⟩, ⟨(0, 0), (0, 0), 0.05, (0, 0, 0)⟩] =
      ([⟨(0, 0), (0, 0), 0.05, (0, 0, 0)⟩, ⟨(0, 0), (0, 0), 0.05, (0, 0, 0)⟩], 0) := by
    rw [appendLoop]
    norm_num
  rw [happ]
  try dsimp only
  rw [if_neg (by norm_num)]
  have hint : integrate 1 1 (0.995 - (1 - 1) * 2e-2) 0 0 0 0 0 ((0 : ℝ), (0 : ℝ), (0 : ℝ))
      (⟨(0, 0), (0, 0), 0.05, (0, 0, 0)⟩ : Blob) =
      ⟨(0, 0), (0, 0), 0.05, (0, 0, 0)⟩ := by
    unfold integrate curl_noise
    norm_num [pymod, clamp, min_eq_right, max_eq_right]
  rw [List.map_cons, List.map_cons, List.map_nil, hint]
  have hscan : mergeScan 1 (fun _ => (0 : ℝ)) 0
      (⟨(0, 0), (0, 0), 0.05, (0, 0, 0)⟩ : Blob)
      [⟨(0, 0), (0, 0), 0.05, (0, 0, 0)⟩] =
      (mergeBlobs ⟨(0, 0), (0, 0), 0.05, (0, 0, 0)⟩ ⟨(0, 0), (0, 0), 0.05, (0, 0, 0)⟩,
        [], 1) := by
    rw [mergeScan]
    norm_num [mergeScan]
  have houter : mergeOuter 1 (fun _ => (0 : ℝ)) 0
      [⟨(0, 0), (0, 0), 0.05, (0, 0, 0)⟩, ⟨(0, 0), (0, 0), 0.05, (0, 0, 0)⟩] =
      ([mergeBlobs ⟨(0, 0), (0, 0), 0.05, (0, 0, 0)⟩ ⟨(0, 0), (0, 0), 0.05, (0, 0, 0)⟩],
        1) := by
    rw [mergeOuter]
    try dsimp only
    rw [hscan]
    try dsimp only
    rw [mergeOuter]
  rw [houter]
  rw [splitLoop]
  try dsimp only
  rw [dif_pos (by norm_num)]
  try dsimp only
  rw [List.getElem_cons_zero]
  rw [if_neg (by simpa [mergeBlobs] using h18)]
  rw [splitLoop]
  try dsimp only
  rw [dif_neg (by norm_num)]
  norm_num

/-- C4 evaluation at the failing input: `step` with `params.blob_count = -1`
on a simulation holding two blobs raises nothing but leaves one blob, not an
empty set — the truncation `self.blobs[: params.blob_count]` uses Python's
negative-slice semantics and keeps `len + blob_count` blobs. -/
theorem step_negative_count_not_empty :
    ((((⟨1, 1, 0.995,
          [⟨(0, 0), (0, 0), 0.05, (0, 0, 0)⟩,
           ⟨(0, 0), (0, 0), 0.05, (0, 0, 0)⟩]⟩ : FluidSimulation).step
        ⟨(0, 0, 0), (0, 0, 0), (0, 0, 0), -1, 1, 0, 1, 0, 0, 1, 0⟩
        0 0 0 0 (fun _ => 0) (fun _ => 0) (fun _ => 0) (fun _ => 0)
        2).blobs).length) = 1 := by
  unfold FluidSimulation.step merge_and_split
  simp only [List.isEmpty_cons, Bool.false_eq_true, if_false]
  have happ : appendLoop 1 1 1 ((0 : ℝ), (0 : ℝ), (0 : ℝ)) (-1) (fun _ => (0 : ℝ)) 0
      [⟨(0, 0), (0, 0), 0.05, (0, 0, 0)⟩, ⟨(0, 0), (0, 0), 0.05, (0, 0, 0)⟩] =
      ([⟨(0, 0), (0, 0), 0.05, (0, 0, 0)⟩, ⟨(0, 0), (0, 0), 0.05, (0, 0, 0)⟩], 0) := by
    rw [appendLoop]
    norm_num
  rw [happ]
  try dsimp only
  rw [if_pos (by norm_num)]
  have hslice : pySliceTo
      [(⟨(0, 0), (0, 0), 0.05, (0, 0, 0)⟩ : Blob), ⟨(0, 0), (0, 0), 0.05, (0, 0, 0)⟩]
      (-1) = [(⟨(0, 0), (0, 0), 0.05, (0, 0, 0)⟩ : Blob)] := by
    unfold pySliceTo
    norm_num
  rw [hslice]
  have hint : integrate 1 1 (0.995 - (1 - 1) * 2e-2) 0 0 0 0 0 ((0 : ℝ), (0 : ℝ), (0 : ℝ))
      (⟨(0, 0), (0, 0), 0.05, (0, 0, 0)⟩ : Blob) =
      ⟨(0, 0), (0, 0), 0.05, (0, 0, 0)⟩ := by
    unfold integrate curl_noise
    norm_num [pymod, clamp, min_eq_right, max_eq_right]
  rw [List.map_cons, List.map_nil, hint]
  have houter : mergeOuter 0 (fun _ => (0 : ℝ)) 0
      [(⟨(0, 0), (0, 0), 0.05, (0, 0, 0)⟩ : Blob)] =
      ([(⟨(0, 0), (0, 0), 0.05, (0, 0, 0)⟩ : Blob)], 0) := by
    rw [mergeOuter]
    try dsimp only
    rw [mergeScan]
    try dsimp only
    rw [mergeOuter]
  rw [houter]
  rw [splitLoop]
  try dsimp only
  rw [dif_pos (by norm_num)]
  try dsimp only
  rw [List.getElem_cons_zero]
  rw [if_neg (by norm_num)]
  rw [splitLoop]
  try dsimp only
  rw [dif_neg (by norm_num)]
  norm_num

theorem tick_target_none (e : EmotionLavaLampEngine) (jitter : ℝ)
    (u ru rv rg : ℕ → ℝ) (fuel : ℕ) (dt : ℝ) :
    (e.tick none jitter u ru rv rg fuel dt).1.target_vad = e.target_vad := rfl

theorem tick_target_some (e : EmotionLavaLampEngine) (v : VAD) (jitter : ℝ)
    (u ru rv rg : ℕ → ℝ) (fuel : ℕ) (dt : ℝ) :
    (e.tick (some v) jitter u ru rv rg fuel dt).1.target_vad =
      (clamp v.1 (-1) 1, clamp v.2.1 (-1) 1, clamp v.2.2 (-1) 1) := rfl

theorem tick_filter_none (e : EmotionLavaLampEngine) (jitter : ℝ)
    (u ru rv rg : ℕ → ℝ) (fuel : ℕ) (dt : ℝ) :
    (e.tick none jitter u ru rv rg fuel dt).1.filter =
      (e.filter.update e.target_vad dt).1 := rfl

theorem tick_filter_some (e : EmotionLavaLampEngine) (v : VAD) (jitter : ℝ)
    (u ru rv rg : ℕ → ℝ) (fuel : ℕ) (dt : ℝ) :
    (e.tick (some v) jitter u ru rv rg fuel dt).1.filter =
      (e.filter.update
        (clamp v.1 (-1) 1, clamp v.2.1 (-1) 1, clamp v.2.2 (-1) 1) dt).1 := rfl

theorem tick_params_none (e : EmotionLavaLampEngine) (jitter : ℝ)
    (u ru rv rg : ℕ → ℝ) (fuel : ℕ) (dt : ℝ) :
    (e.tick none jitter u ru rv rg fuel dt).2 =
      e.mapper.map (e.filter.update e.target_vad dt).2
        (e.energy_model.update e.target_vad (e.filter.update e.target_vad dt).2).2
        (e.time_s + dt) jitter := rfl

theorem update_tau_d (f : TemporalFilter) (target : VAD) (dt : ℝ) :
    (f.update target dt).1.tau_d = f.tau_d := rfl

theorem update_max_step (f : TemporalFilter) (target : VAD) (dt : ℝ) :
    (f.update target dt).1.max_step = f.max_step := rfl

theorem update_state_eq (f : TemporalFilter) (target : VAD) (dt : ℝ) :
    (f.update target dt).1.state = (f.update target dt).2 := rfl

theorem update_d_axis (f : TemporalFilter) (target : VAD) (dt : ℝ) :
    (f.update target dt).2.2.2 =
      filterAxis f.state.2.2 target.2.2 f.tau_d f.max_step dt := rfl

theorem map_threshold (m : VisualMapping) (vad : VAD) (energy t jitter : ℝ) :
    (m.map vad energy t jitter).threshold = lerp 1.2 0.9 ((vad.2.2 + 1) / 2) := rfl

/-- C2 (amended): across ticks where the source yields the no-sample marker,
`target_vad` is held identical (and the returned `VisualParams` is determined
by that held target together with the still-evolving filter state, energy and
clock — so the params themselves need not be identical across those ticks). -/
theorem tick_none_holds_target :
    ∀ (e : EmotionLavaLampEngine) (jitter : ℝ) (u ru rv rg : ℕ → ℝ)
      (fuel : ℕ) (dt : ℝ),
      (e.tick none jitter u ru rv rg fuel dt).1.target_vad = e.target_vad ∧
      (e.tick none jitter u ru rv rg fuel dt).2 =
        e.mapper.map (e.filter.update e.target_vad dt).2
          (e.energy_model.update e.target_vad
            (e.filter.update e.target_vad dt).2).2 (e.time_s + dt) jitter :=
  fun _ _ _ _ _ _ _ _ => ⟨rfl, rfl⟩

/-- C2 counterexample: from the initial engine, one tick with the valid
sample `(0, 0, 1)` followed by two no-sample ticks. `target_vad` is identical
across the no-sample ticks, but the `VisualParams` returned by the second and
third tick differ: the dominance axis keeps moving toward the held target, so
the `threshold` fields differ — the claim that the returned `VisualParams`
are identical across the N no-sample ticks is false. -/
theorem tick_params_counterexample :
    ((EmotionLavaLampEngine.init.tick (some ((0 : ℝ), (0 : ℝ), (1 : ℝ))) 0 (fun _ => 0) (fun _ => 0) (fun _ => 0) (fun _ => 0) 0 0.016).1.tick none 0 (fun _ => 0) (fun _ => 0) (fun _ => 0) (fun _ => 0) 0 0.016).1.target_vad = (EmotionLavaLampEngine.init.tick (some ((0 : ℝ), (0 : ℝ), (1 : ℝ))) 0 (fun _ => 0) (fun _ => 0) (fun _ => 0) (fun _ => 0) 0 0.016).1.target_vad ∧
    (((EmotionLavaLampEngine.init.tick (some ((0 : ℝ), (0 : ℝ), (1 : ℝ))) 0 (fun _ => 0) (fun _ => 0) (fun _ => 0) (fun _ => 0) 0 0.016).1.tick none 0 (fun _ => 0) (fun _ => 0) (fun _ => 0) (fun _ => 0) 0 0.016).1.tick none 0 (fun _ => 0) (fun _ => 0) (fun _ => 0) (fun _ => 0) 0 0.016).1.target_vad = ((EmotionLavaLampEngine.init.tick (some ((0 : ℝ), (0 : ℝ), (1 : ℝ))) 0 (fun _ => 0) (fun _ => 0) (fun _ => 0) (fun _ => 0) 0 0.016).1.tick none 0 (fun _ => 0) (fun _ => 0) (fun _ => 0) (fun _ => 0) 0 0.016).1.target_vad ∧
    ((EmotionLavaLampEngine.init.tick (some ((0 : ℝ), (0 : ℝ), (1 : ℝ))) 0 (fun _ => 0) (fun _ => 0) (fun _ => 0) (fun _ => 0) 0 0.016).1.tick none 0 (fun _ => 0) (fun _ => 0) (fun _ => 0) (fun _ => 0) 0 0.016).2 ≠ (((EmotionLavaLampEngine.init.tick (some ((0 : ℝ), (0 : ℝ), (1 : ℝ))) 0 (fun _ => 0) (fun _ => 0) (fun _ => 0) (fun _ => 0) 0 0.016).1.tick none 0 (fun _ => 0) (fun _ => 0) (fun _ => 0) (fun _ => 0) 0 0.016).1.tick none 0 (fun _ => 0) (fun _ => 0) (fun _ => 0) (fun _ => 0) 0 0.016).2 := by
  have ht1 : (EmotionLavaLampEngine.init.tick (some ((0 : ℝ), (0 : ℝ), (1 : ℝ))) 0 (fun _ => 0) (fun _ => 0) (fun _ => 0) (fun _ => 0) 0 0.016).1.target_vad = ((0 : ℝ), (0 : ℝ), (1 : ℝ)) := by
    rw [tick_target_some]
    norm_num [clamp, min_def, max_def]
  have ht2 : ((EmotionLavaLampEngine.init.tick (some ((0 : ℝ), (0 : ℝ), (1 : ℝ))) 0 (fun _ => 0) (fun _ => 0) (fun _ => 0) (fun _ => 0) 0 0.016).1.tick none 0 (fun _ => 0) (fun _ => 0) (fun _ => 0) (fun _ => 0) 0 0.016).1.target_vad = ((0 : ℝ), (0 : ℝ), (1 : ℝ)) := by
    rw [tick_target_none, ht1]
  have hf1 : (EmotionLavaLampEngine.init.tick (some ((0 : ℝ), (0 : ℝ), (1 : ℝ))) 0 (fun _ => 0) (fun _ => 0) (fun _ => 0) (fun _ => 0) 0 0.016).1.filter =
      (TemporalFilter.init.update ((0 : ℝ), (0 : ℝ), (1 : ℝ)) 0.016).1 := by
    rw [tick_filter_some]
    norm_num [EmotionLavaLampEngine.init, clamp, min_def, max_def]
  have hf2 : ((EmotionLavaLampEngine.init.tick (some ((0 : ℝ), (0 : ℝ), (1 : ℝ))) 0 (fun _ => 0) (fun _ => 0) (fun _ => 0) (fun _ => 0) 0 0.016).1.tick none 0 (fun _ => 0) (fun _ => 0) (fun _ => 0) (fun _ => 0) 0 0.016).1.filter =
      ((EmotionLavaLampEngine.init.tick (some ((0 : ℝ), (0 : ℝ), (1 : ℝ))) 0 (fun _ => 0) (fun _ => 0) (fun _ => 0) (fun _ => 0) 0 0.016).1.filter.update ((0 : ℝ), (0 : ℝ), (1 : ℝ)) 0.016).1 := by
    rw [tick_filter_none, ht1]
  have htau1 : (EmotionLavaLampEngine.init.tick (some ((0 : ℝ), (0 : ℝ), (1 : ℝ))) 0 (fun _ => 0) (fun _ => 0) (fun _ => 0) (fun _ => 0) 0 0.016).1.filter.tau_d = 1.2 := by
    rw [hf1, update_tau_d]
    norm_num [TemporalFilter.init]
  have hms1 : (EmotionLavaLampEngine.init.tick (some ((0 : ℝ), (0 : ℝ), (1 : ℝ))) 0 (fun _ => 0) (fun _ => 0) (fun _ => 0) (fun _ => 0) 0 0.016).1.filter.max_step = 0.25 := by
    rw [hf1, update_max_step]
    norm_num [TemporalFilter.init]
  have htau2 : ((EmotionLavaLampEngine.init.tick (some ((0 : ℝ), (0 : ℝ), (1 : ℝ))) 0 (fun _ => 0) (fun _ => 0) (fun _ => 0) (fun _ => 0) 0 0.016).1.tick none 0 (fun _ => 0) (fun _ => 0) (fun _ => 0) (fun _ => 0) 0 0.016).1.filter.tau_d = 1.2 := by
    rw [hf2, update_tau_d, htau1]
  have hms2 : ((EmotionLavaLampEngine.init.tick (some ((0 : ℝ), (0 : ℝ), (1 : ℝ))) 0 (fun _ => 0) (fun _ => 0) (fun _ => 0) (fun _ => 0) 0 0.016).1.tick none 0 (fun _ => 0) (fun _ => 0) (fun _ => 0) (fun _ => 0) 0 0.016).1.filter.max_step = 0.25 := by
    rw [hf2, update_max_step, hms1]
  have hs1 : (EmotionLavaLampEngine.init.tick (some ((0 : ℝ), (0 : ℝ), (1 : ℝ))) 0 (fun _ => 0) (fun _ => 0) (fun _ => 0) (fun _ => 0) 0 0.016).1.filter.state.2.2 = filterAxis 0 1 1.2 0.25 0.016 := by
    rw [hf1, update_state_eq, update_d_axis]
    norm_num [TemporalFilter.init]
  have hs2 : ((EmotionLavaLampEngine.init.tick (some ((0 : ℝ), (0 : ℝ), (1 : ℝ))) 0 (fun _ => 0) (fun _ => 0) (fun _ => 0) (fun _ => 0) 0 0.016).1.tick none 0 (fun _ => 0) (fun _ => 0) (fun _ => 0) (fun _ => 0) 0 0.016).1.filter.state.2.2 = filterAxis (filterAxis 0 1 1.2 0.25 0.016) 1 1.2 0.25 0.016 := by
    rw [hf2, update_state_eq, update_d_axis, hs1, htau1, hms1]
  refine ⟨tick_target_none _ _ _ _ _ _ _ _, tick_target_none _ _ _ _ _ _ _ _, ?_⟩
  intro heq
  have hth := congrArg VisualParams.threshold heq
  rw [tick_params_none, tick_params_none, map_threshold, map_threshold] at hth
  rw [ht1, ht2, update_d_axis, update_d_axis, hs1, hs2, htau1, htau2, hms1, hms2] at hth
  have h1 := filterAxis_lt 0 1 1.2 0.25 0.016 (by norm_num) (by norm_num)
    (by norm_num) (by norm_num) (by norm_num) (by norm_num)
  have h2 := filterAxis_lt (filterAxis 0 1 1.2 0.25 0.016) 1 1.2 0.25 0.016 (by linarith [h1.1]) h1.2
    (by norm_num) (by norm_num) (by norm_num) (by norm_num)
  have h3 := filterAxis_lt (filterAxis (filterAxis 0 1 1.2 0.25 0.016) 1 1.2 0.25 0.016) 1 1.2 0.25 0.016 (by linarith [h2.1]) h2.2
    (by norm_num) (by norm_num) (by norm_num) (by norm_num)
  unfold lerp at hth
  have hlt := h3.1
  linarith

/-- C3 evaluation at the failing inputs: the engine performs no validation of
the VAD sample. A 4-component (wrong arity) sample is clamped and stored in
`target_vad` and `tick` proceeds without any error — the malformed value
reaches `TemporalFilter.update`, whose `zip` silently drops the extra
component. A 2-component sample is likewise clamped and stored first, and the
error that does arise is an `IndexError` inside `TemporalFilter.update` when
rebuilding the 3-tuple state — not a descriptive error at the point of sample
retrieval. -/
theorem tick_malformed_sample_no_failfast :
    (tickRetrieval EmotionLavaLampEngine.init (some [0.3, 0.3, 0.3, 0.3]) 0.016).1 =
      [0.3, 0.3, 0.3, 0.3] ∧
    ((tickRetrieval EmotionLavaLampEngine.init
      (some [0.3, 0.3, 0.3, 0.3]) 0.016).2.isOk = true) ∧
    (tickRetrieval EmotionLavaLampEngine.init (some [0.3, 0.3]) 0.016).1 =
      [0.3, 0.3] ∧
    (tickRetrieval EmotionLavaLampEngine.init (some [0.3, 0.3]) 0.016).2 =
      Except.error "IndexError: tuple index out of range" := by
  refine ⟨?_, ?_, ?_, ?_⟩
  · norm_num [tickRetrieval, clampSample, clamp, min_def, max_def]
  · norm_num [tickRetrieval, clampSample, TemporalFilter.updateDyn,
      EmotionLavaLampEngine.init, TemporalFilter.init, clamp, min_def, max_def,
      Except.isOk, Except.toBool]
  · norm_num [tickRetrieval, clampSample, clamp, min_def, max_def]
  · norm_num [tickRetrieval, clampSample, TemporalFilter.updateDyn,
      EmotionLavaLampEngine.init, TemporalFilter.init, clamp, min_def, max_def]
